import Mathlib

/-!
Shallow embedding of `src/backend/services/clash_royale_service.py`
(class `ClashRoyaleService`) for the CRTrackerWebApp repository.

The service is a thin HTTP client: a constructor that normalises the base
URL and installs session headers, one request primitive `_make_request`
that builds a URL, performs a GET and classifies failures, and derived
operations that compute an endpoint (normalising player/clan tags) and
delegate to the primitive.

Network effects are embedded by passing an `Upstream` oracle describing
what the single outbound GET of an operation does (times out, fails at the
network level, or yields an HTTP response whose body may or may not parse
as JSON).  Each operation returns the service state after the call, the
list of HTTP requests it issued, and the Python-level outcome (normal
return or raised exception).
-/

/-! ### Python string primitives used by the service -/

/-- Python `s.rstrip(c)` for a single character `c`: remove every trailing
occurrence of `c`. -/
def pyRstrip (s : String) (c : Char) : String :=
  String.mk (((s.data.reverse).dropWhile (fun x => x = c)).reverse)

/-- Python `s.lstrip(c)` for a single character `c`: remove every leading
occurrence of `c`. -/
def pyLstrip (s : String) (c : Char) : String :=
  String.mk (s.data.dropWhile (fun x => x = c))

/-- Python `s.replace(old, new)` where `old` is a single character:
replace every occurrence of the character by the string `new`. -/
def pyReplaceChar (s : String) (old : Char) (new : String) : String :=
  String.join (s.data.map (fun x => if x = old then new else String.mk [x]))

/-- Python `s.upper()` (the tags handled by the service are ASCII). -/
def pyUpper (s : String) : String :=
  String.mk (s.data.map Char.toUpper)

/-- Python `s.startswith(c)` for a single character `c`. -/
def pyStartsWith (s : String) (c : Char) : Bool :=
  match s.data with
  | [] => false
  | x :: _ => x = c

/-- Python `s[1:]`: the string without its first character. -/
def pyTail (s : String) : String :=
  String.mk s.data.tail

/-! ### JSON values and query parameters -/

/-- A JSON value as returned by `response.json()`. -/
inductive JsonValue where
  | null : JsonValue
  | bool (b : Bool) : JsonValue
  | num (n : Int) : JsonValue
  | str (s : String) : JsonValue
  | arr (elems : List JsonValue) : JsonValue
  | obj (fields : List (String × JsonValue)) : JsonValue

/-- First-match association lookup, as in a Python `dict` (keys are unique
in a dict, so first match is the match). -/
def lookupField (fields : List (String × JsonValue)) (key : String) :
    Option JsonValue :=
  match fields with
  | [] => none
  | (k, v) :: rest => if k = key then some v else lookupField rest key

/-- Python `d.get(key, default)` on a JSON object. -/
def JsonValue.pyGet (j : JsonValue) (key : String) : Option JsonValue :=
  match j with
  | .obj fields => lookupField fields key
  | _ => none

/-- A query-parameter value: the service passes both ints and strings. -/
inductive ParamValue where
  | int (n : Int) : ParamValue
  | str (s : String) : ParamValue
deriving DecidableEq

/-! ### Errors raised by `_make_request` and the upstream oracle -/

/-- The Python exceptions `_make_request` can raise: `ValueError(msg)` or
`requests.exceptions.RequestException(msg)`. -/
inductive PyError where
  | valueError (msg : String) : PyError
  | requestException (msg : String) : PyError
deriving DecidableEq

/-- Behaviour of the single outbound `session.get` of one operation:
a timeout, a network-level failure carrying `str(e)` of the underlying
exception, or an HTTP response with a status code, a body text, and the
result of `response.json()` on that body (`Except.error em` models a JSON
decode failure whose `str(e)` is `em`). -/
inductive Upstream where
  | timeout : Upstream
  | netError (msg : String) : Upstream
  | response (status : Nat) (text : String) (body : Except String JsonValue) :
      Upstream

/-! ### The service object -/

/-- The `ClashRoyaleService` instance state: the fields set in `__init__`.
`session_headers` models `self.session.headers` after the
`headers.update` call. -/
structure ClashRoyaleService where
  api_key : String
  base_url : String
  timeout : Int
  session_headers : List (String × String)
deriving DecidableEq

/-- `ClashRoyaleService.__init__(api_key, base_url, timeout=30)`:
strips trailing slashes from `base_url` and installs the
`Authorization: Bearer <api_key>` and `Accept: application/json`
session headers. -/
def mkService (api_key base_url : String) (timeout : Int := 30) :
    ClashRoyaleService :=
  { api_key := api_key
    base_url := pyRstrip base_url '/'
    timeout := timeout
    session_headers :=
      [("Authorization", "Bearer " ++ api_key),
       ("Accept", "application/json")] }

/-- One outbound HTTP GET as issued by `self.session.get`. -/
structure HttpRequest where
  url : String
  params : Option (List (String × ParamValue))
  headers : List (String × String)
  timeout : Int
deriving DecidableEq

/-! ### The request primitive `_make_request` -/

/-- `requests.Response.raise_for_status` raises `HTTPError` exactly for
status codes in `[400, 600)`. -/
def raiseForStatusRaises (status : Nat) : Bool :=
  decide (400 ≤ status) && decide (status < 600)

/-- Message of the exception raised on `requests.exceptions.Timeout`. -/
def timeoutMsg : String := "Request to Clash Royale API timed out"

/-- Message of the `ValueError` raised on HTTP 404. -/
def notFoundMsg : String :=
  "Resource not found. Check the player tag or clan tag."

/-- Message of the `ValueError` raised on HTTP 403. -/
def forbiddenMsg : String := "Access forbidden. Check your API key."

/-- Message of the `ValueError` raised on HTTP 429. -/
def rateLimitMsg : String := "Rate limit exceeded. Please try again later."

/-- Message of the `ValueError` raised on any other HTTP error status:
`f"API request failed with status {response.status_code}: {response.text}"`. -/
def upstreamErrorMsg (status : Nat) (text : String) : String :=
  "API request failed with status " ++ toString status ++ ": " ++ text

/-- Message of the exception raised in the final
`except requests.exceptions.RequestException` handler:
`f"Failed to connect to Clash Royale API: {str(e)}"`. -/
def connectMsg (m : String) : String :=
  "Failed to connect to Clash Royale API: " ++ m

/-- The URL built by `_make_request`:
`f"{self.base_url}/{endpoint.lstrip('/')}"`. -/
def makeRequestUrl (s : ClashRoyaleService) (endpoint : String) : String :=
  s.base_url ++ "/" ++ pyLstrip endpoint '/'

/-- The `session.get` request issued by `_make_request` for a given
endpoint and params. -/
def makeRequestReq (s : ClashRoyaleService) (endpoint : String)
    (params : Option (List (String × ParamValue))) : HttpRequest :=
  { url := makeRequestUrl s endpoint
    params := params
    headers := s.session_headers
    timeout := s.timeout }

/-- Outcome classification of `_make_request`'s `try`/`except` chain, as a
function of what the outbound GET did:
* `requests.exceptions.Timeout` is re-raised as a `RequestException` with
  a fixed message;
* `HTTPError` from `raise_for_status` is mapped on `response.status_code`
  to the four `ValueError` classifications;
* every other `RequestException` — a network-level failure, or (with
  requests ≥ 2.27) the `JSONDecodeError` from `response.json()`, which
  subclasses `RequestException` — is re-raised with the
  "Failed to connect" prefix;
* otherwise the parsed JSON body is returned. -/
def makeRequestOutcome (u : Upstream) : Except PyError JsonValue :=
  match u with
  | .timeout => .error (.requestException timeoutMsg)
  | .netError m => .error (.requestException (connectMsg m))
  | .response status text body =>
    if raiseForStatusRaises status then
      if status = 404 then .error (.valueError notFoundMsg)
      else if status = 403 then .error (.valueError forbiddenMsg)
      else if status = 429 then .error (.valueError rateLimitMsg)
      else .error (.valueError (upstreamErrorMsg status text))
    else
      match body with
      | .ok j => .ok j
      | .error em => .error (.requestException (connectMsg em))

/-- `_make_request(self, endpoint, params=None)`: returns the service
state after the call, the outbound requests issued (always exactly one),
and the Python-level outcome.  The method never assigns to `self`. -/
def _make_request (s : ClashRoyaleService) (endpoint : String) (u : Upstream)
    (params : Option (List (String × ParamValue)) := none) :
    ClashRoyaleService × List HttpRequest × Except PyError JsonValue :=
  (s, [makeRequestReq s endpoint params], makeRequestOutcome u)

/-! ### Derived operations -/

/-- Player-tag normalisation, inlined identically in `get_player_info`
(lines 109–112) and `get_player_battle_log` (lines 134–137):
```
if player_tag.startswith('#'):
    player_tag = '%23' + player_tag[1:]
else :
    player_tag = '%23'+player_tag
``` -/
def normalizePlayerTag (player_tag : String) : String :=
  if pyStartsWith player_tag '#' then "%23" ++ pyTail player_tag
  else "%23" ++ player_tag

/-- Clan-tag normalisation, inlined identically in `get_clan_info`
(lines 156–157), `get_clan_war_log` (lines 191–192) and
`get_clan_current_war` (lines 212–213):
```
clean_tag = clan_tag.replace('#', '').upper()
encoded_tag = clean_tag.replace('#', '%23')
```
(the second `replace` acts on `clean_tag`, from which every `'#'` has
already been removed). -/
def normalizeClanTag (clan_tag : String) : String :=
  let clean_tag := pyUpper (pyReplaceChar clan_tag '#' "")
  let encoded_tag := pyReplaceChar clean_tag '#' "%23"
  encoded_tag

/-- Endpoint computed by `get_player_info`: `f"players/{player_tag}"`
after normalisation. -/
def get_player_info_endpoint (player_tag : String) : String :=
  "players/" ++ normalizePlayerTag player_tag

/-- Endpoint computed by `get_player_battle_log`:
`f"players/{player_tag}/battlelog"` after normalisation. -/
def get_player_battle_log_endpoint (player_tag : String) : String :=
  "players/" ++ normalizePlayerTag player_tag ++ "/battlelog"

/-- Endpoint computed by `get_clan_info`: `f"clans/{encoded_tag}"`. -/
def get_clan_info_endpoint (clan_tag : String) : String :=
  "clans/" ++ normalizeClanTag clan_tag

/-- Endpoint computed by `get_clan_war_log`:
`f"clans/{encoded_tag}/warlog"`. -/
def get_clan_war_log_endpoint (clan_tag : String) : String :=
  "clans/" ++ normalizeClanTag clan_tag ++ "/warlog"

/-- Endpoint computed by `get_clan_current_war`:
`f"clans/{encoded_tag}/currentwar"`. -/
def get_clan_current_war_endpoint (clan_tag : String) : String :=
  "clans/" ++ normalizeClanTag clan_tag ++ "/currentwar"

/-- Endpoint computed by `get_pol_leaderboard` (lines 233–239). -/
def get_pol_leaderboard_endpoint (season : String) : String :=
  if season = "current" then "locations/global/pathoflegend/players"
  else "locations/global/pathoflegend/" ++ season ++ "/rankings/players"

/-- `get_player_info(self, player_tag)`. -/
def get_player_info (s : ClashRoyaleService) (player_tag : String)
    (u : Upstream) :
    ClashRoyaleService × List HttpRequest × Except PyError JsonValue :=
  _make_request s (get_player_info_endpoint player_tag) u

/-- `get_player_battle_log(self, player_tag)`. -/
def get_player_battle_log (s : ClashRoyaleService) (player_tag : String)
    (u : Upstream) :
    ClashRoyaleService × List HttpRequest × Except PyError JsonValue :=
  _make_request s (get_player_battle_log_endpoint player_tag) u

/-- `get_clan_info(self, clan_tag)`. -/
def get_clan_info (s : ClashRoyaleService) (clan_tag : String)
    (u : Upstream) :
    ClashRoyaleService × List HttpRequest × Except PyError JsonValue :=
  _make_request s (get_clan_info_endpoint clan_tag) u

/-- `get_clan_members(self, clan_tag)`: calls `self.get_clan_info(clan_tag)`
and, on success, returns
`{'members': clan_info.get('memberList', []),
  'memberCount': clan_info.get('memberCount', 0)}`;
an exception from `get_clan_info` propagates unchanged. -/
def get_clan_members (s : ClashRoyaleService) (clan_tag : String)
    (u : Upstream) :
    ClashRoyaleService × List HttpRequest × Except PyError JsonValue :=
  let r := get_clan_info s clan_tag u
  (r.1, r.2.1,
    r.2.2.map (fun clan_info =>
      .obj [("members", (clan_info.pyGet "memberList").getD (.arr [])),
            ("memberCount", (clan_info.pyGet "memberCount").getD (.num 0))]))

/-- `get_clan_war_log(self, clan_tag)`. -/
def get_clan_war_log (s : ClashRoyaleService) (clan_tag : String)
    (u : Upstream) :
    ClashRoyaleService × List HttpRequest × Except PyError JsonValue :=
  _make_request s (get_clan_war_log_endpoint clan_tag) u

/-- `get_clan_current_war(self, clan_tag)`. -/
def get_clan_current_war (s : ClashRoyaleService) (clan_tag : String)
    (u : Upstream) :
    ClashRoyaleService × List HttpRequest × Except PyError JsonValue :=
  _make_request s (get_clan_current_war_endpoint clan_tag) u

/-- `get_cards(self)`: endpoint `"cards"`. -/
def get_cards (s : ClashRoyaleService) (u : Upstream) :
    ClashRoyaleService × List HttpRequest × Except PyError JsonValue :=
  _make_request s "cards" u

/-- `get_pol_leaderboard(self, season)`. -/
def get_pol_leaderboard (s : ClashRoyaleService) (season : String)
    (u : Upstream) :
    ClashRoyaleService × List HttpRequest × Except PyError JsonValue :=
  _make_request s (get_pol_leaderboard_endpoint season) u

/-- `get_tournaments(self, name)`: endpoint `"tournaments"` with query
params `{'name': name}`. -/
def get_tournaments (s : ClashRoyaleService) (name : String)
    (u : Upstream) :
    ClashRoyaleService × List HttpRequest × Except PyError JsonValue :=
  _make_request s "tournaments" u (some [("name", .str name)])

/-- `get_popular_clans(self, limit=200)`: endpoint `"clans"` with query
params `{'minScore': 40000, 'limit': min(limit, 200)}`. -/
def get_popular_clans (s : ClashRoyaleService) (u : Upstream)
    (limit : Int := 200) :
    ClashRoyaleService × List HttpRequest × Except PyError JsonValue :=
  _make_request s "clans" u
    (some [("minScore", .int 40000), ("limit", .int (min limit 200))])

/-! ### The caller-side error taxonomy -/

/-- The six error classifications of the service's failure taxonomy. -/
inductive ErrKind where
  | notFound : ErrKind
  | forbidden : ErrKind
  | rateLimited : ErrKind
  | upstreamError : ErrKind
  | upstreamTimeout : ErrKind
  | connectionFailed : ErrKind
deriving DecidableEq

/-- Boolean string-prefix test (used by the caller-side discriminator). -/
def strHasPre (p s : String) : Bool :=
  p.data.isPrefixOf s.data

/-- A discriminator a caller of `_make_request` can implement from the
exception type and message alone: it maps each exception the primitive
raises to the corresponding kind of the taxonomy.  Parametrised messages
are recognised by their fixed prefixes, fixed messages by equality. -/
def classifyError : PyError → Option ErrKind
  | .valueError m =>
    if strHasPre "API request failed with status " m then some .upstreamError
    else if m = notFoundMsg then some .notFound
    else if m = forbiddenMsg then some .forbidden
    else if m = rateLimitMsg then some .rateLimited
    else none
  | .requestException m =>
    if strHasPre "Failed to connect to Clash Royale API: " m then
      some .connectionFailed
    else if m = timeoutMsg then some .upstreamTimeout
    else none

/-! ### Helper lemmas about the string primitives -/

theorem strDataAppend (a b : String) : (a ++ b).data = a.data ++ b.data := by
  cases a; cases b; rfl

theorem strAppendAssoc (a b c : String) : a ++ b ++ c = a ++ (b ++ c) := by
  cases a; cases b; cases c
  exact congrArg String.mk (List.append_assoc _ _ _)

theorem listIsPrefixOfAppend (l t : List Char) : l.isPrefixOf (l ++ t) = true := by
  induction l with
  | nil => simp [List.isPrefixOf]
  | cons a as ih => simp [List.isPrefixOf, ih]

theorem strHasPreAppend (p r : String) : strHasPre p (p ++ r) = true := by
  unfold strHasPre
  rw [strDataAppend]
  exact listIsPrefixOfAppend _ _

theorem classify_upstreamError (st : Nat) (text : String) :
    classifyError (.valueError (upstreamErrorMsg st text)) =
      some .upstreamError := by
  have e : upstreamErrorMsg st text =
      "API request failed with status " ++ (toString st ++ (": " ++ text)) := by
    simp [upstreamErrorMsg, strAppendAssoc]
  have h : strHasPre "API request failed with status "
      (upstreamErrorMsg st text) = true := by
    rw [e]; exact strHasPreAppend _ _
  simp [classifyError, h]

theorem classify_connect (m : String) :
    classifyError (.requestException (connectMsg m)) =
      some .connectionFailed := by
  have h : strHasPre "Failed to connect to Clash Royale API: "
      (connectMsg m) = true := strHasPreAppend _ _
  simp [classifyError, h]

/-! ### Claim theorems -/

/-- C1 (failing-input evaluation): for the clan tag `#2q0j8yqv`, the
endpoint computed by `get_clan_info` (and by `get_clan_war_log` and
`get_clan_current_war`) is `clans/2Q0J8YQV` — upper-cased with `#`
removed, but WITHOUT the `%23` prefix claimed by the spec, because the
code strips every `#` from the tag before it attempts the `#` → `%23`
replacement, leaving that replacement a no-op. -/
theorem c1_clan_endpoint_unencoded :
    get_clan_info_endpoint "#2q0j8yqv" = "clans/2Q0J8YQV" ∧
    get_clan_war_log_endpoint "#2q0j8yqv" = "clans/2Q0J8YQV/warlog" ∧
    get_clan_current_war_endpoint "#2q0j8yqv" = "clans/2Q0J8YQV/currentwar" ∧
    get_clan_info_endpoint "#2q0j8yqv" ≠ "clans/%232Q0J8YQV" := by
  refine ⟨rfl, rfl, rfl, by decide⟩

/-- C2: for every player tag `t` without a leading `#`, `get_player_info`
requests endpoint `players/%23{t}`; for `t` with a leading `#`, the `#`
is replaced rather than duplicated, giving `players/%23{t-without-hash}`;
the same normalisation holds for `get_player_battle_log` with the
`/battlelog` suffix. -/
theorem c2_player_tag_normalization (t : String) :
    (pyStartsWith t '#' = false →
      get_player_info_endpoint t = "players/%23" ++ t ∧
      get_player_battle_log_endpoint t = "players/%23" ++ t ++ "/battlelog") ∧
    (∀ rest : List Char, t.data = '#' :: rest →
      get_player_info_endpoint t = "players/%23" ++ String.mk rest ∧
      get_player_battle_log_endpoint t =
        "players/%23" ++ String.mk rest ++ "/battlelog") := by
  constructor
  · intro h
    have e1 : get_player_info_endpoint t = "players/%23" ++ t := by
      simp only [get_player_info_endpoint, normalizePlayerTag, h,
        Bool.false_eq_true, if_false]
      rw [← strAppendAssoc]
      rfl
    exact ⟨e1, congrArg (fun x => x ++ "/battlelog") e1⟩
  · intro rest h
    have hs : pyStartsWith t '#' = true := by
      simp [pyStartsWith, h]
    have ht : pyTail t = String.mk rest := by
      simp [pyTail, h]
    have e1 : get_player_info_endpoint t = "players/%23" ++ String.mk rest := by
      simp only [get_player_info_endpoint, normalizePlayerTag, hs, if_true, ht]
      rw [← strAppendAssoc]
      rfl
    exact ⟨e1, congrArg (fun x => x ++ "/battlelog") e1⟩

/-- C2 witness: the normalisation evaluated at the tags `AB` and `#AB`. -/
theorem c2_player_tag_normalization_witness :
    get_player_info_endpoint "AB" = "players/%23AB" ∧
    get_player_info_endpoint "#AB" = "players/%23AB" := by
  constructor
  · exact ((c2_player_tag_normalization "AB").1 (by decide)).1
  · exact ((c2_player_tag_normalization "#AB").2 ['A', 'B'] (by decide)).1

/-- C10: a player tag already URL-encoded (leading `%23`, no `#`) gets a
second `%23` prepended by `get_player_info` and `get_player_battle_log`:
the player-tag normalisation is not idempotent on already-encoded
input. -/
theorem c10_double_encoding_on_encoded_tag (rest : String) :
    pyStartsWith ("%23" ++ rest) '#' = false ∧
    get_player_info_endpoint ("%23" ++ rest) = "players/%23%23" ++ rest ∧
    get_player_battle_log_endpoint ("%23" ++ rest) =
      "players/%23%23" ++ rest ++ "/battlelog" := by
  obtain ⟨l⟩ := rest
  exact ⟨rfl, rfl, rfl⟩

/-- C8: `get_pol_leaderboard(season)` requests
`locations/global/pathoflegend/players` exactly when `season = "current"`,
and `locations/global/pathoflegend/{season}/rankings/players` otherwise;
in particular the endpoints for `"current"` and `"2025-12"` differ. -/
theorem c8_pol_leaderboard_endpoints (s : ClashRoyaleService)
    (season : String) (u : Upstream) :
    (season = "current" →
      (get_pol_leaderboard s season u).2.1 =
        [makeRequestReq s "locations/global/pathoflegend/players" none]) ∧
    (season ≠ "current" →
      (get_pol_leaderboard s season u).2.1 =
        [makeRequestReq s
          ("locations/global/pathoflegend/" ++ season ++ "/rankings/players")
          none]) ∧
    get_pol_leaderboard_endpoint "current" ≠
      get_pol_leaderboard_endpoint "2025-12" := by
  refine ⟨?_, ?_, by decide⟩
  · intro h
    subst h
    rfl
  · intro h
    simp [get_pol_leaderboard, _make_request, get_pol_leaderboard_endpoint, h]

/-- C8 witness: the two example seasons evaluated. -/
theorem c8_pol_leaderboard_endpoints_witness :
    (get_pol_leaderboard (mkService "k" "https://b" 30) "current"
        Upstream.timeout).2.1 =
      [makeRequestReq (mkService "k" "https://b" 30)
        "locations/global/pathoflegend/players" none] ∧
    (get_pol_leaderboard (mkService "k" "https://b" 30) "2025-12"
        Upstream.timeout).2.1 =
      [makeRequestReq (mkService "k" "https://b" 30)
        ("locations/global/pathoflegend/" ++ "2025-12" ++ "/rankings/players")
        none] := by
  constructor
  · exact (c8_pol_leaderboard_endpoints (mkService "k" "https://b" 30)
      "current" Upstream.timeout).1 rfl
  · exact (c8_pol_leaderboard_endpoints (mkService "k" "https://b" 30)
      "2025-12" Upstream.timeout).2.1 (by decide)

/-- C6: `get_popular_clans(limit)` requests endpoint `clans` with query
params `minScore=40000` and `limit=min(limit, 200)`; in particular
`limit=500` is clamped to `200`, `limit=50` is sent as `50`, and the
default argument is `200`. -/
theorem c6_popular_clans_params (s : ClashRoyaleService) (u : Upstream)
    (limit : Int) :
    (get_popular_clans s u limit).2.1 =
      [makeRequestReq s "clans"
        (some [("minScore", .int 40000), ("limit", .int (min limit 200))])] ∧
    (get_popular_clans s u 500).2.1 =
      [makeRequestReq s "clans"
        (some [("minScore", .int 40000), ("limit", .int 200)])] ∧
    (get_popular_clans s u 50).2.1 =
      [makeRequestReq s "clans"
        (some [("minScore", .int 40000), ("limit", .int 50)])] ∧
    get_popular_clans s u = get_popular_clans s u 200 :=
  ⟨rfl, rfl, rfl, rfl⟩

/-- C5: `get_clan_members` issues exactly the single endpoint call that
`get_clan_info` issues, and wraps the payload as
`{members: memberList or [], memberCount: memberCount or 0}`. -/
theorem c5_clan_members_derived (s : ClashRoyaleService) (t : String)
    (u : Upstream) (text : String) (fields : List (String × JsonValue)) :
    (get_clan_members s t u).2.1 = (get_clan_info s t u).2.1 ∧
    (get_clan_members s t u).2.1.length = 1 ∧
    (get_clan_members s t
        (Upstream.response 200 text (Except.ok (JsonValue.obj fields)))).2.2 =
      Except.ok (JsonValue.obj
        [("members", (lookupField fields "memberList").getD (JsonValue.arr [])),
         ("memberCount",
          (lookupField fields "memberCount").getD (JsonValue.num 0))]) ∧
    (lookupField fields "memberList" = none →
      lookupField fields "memberCount" = none →
      (get_clan_members s t
          (Upstream.response 200 text (Except.ok (JsonValue.obj fields)))).2.2 =
        Except.ok (JsonValue.obj
          [("members", JsonValue.arr []),
           ("memberCount", JsonValue.num 0)])) ∧
    (∀ mv cv, lookupField fields "memberList" = some mv →
      lookupField fields "memberCount" = some cv →
      (get_clan_members s t
          (Upstream.response 200 text (Except.ok (JsonValue.obj fields)))).2.2 =
        Except.ok (JsonValue.obj
          [("members", mv), ("memberCount", cv)])) := by
  refine ⟨rfl, rfl, rfl, ?_, ?_⟩
  · intro h1 h2
    simp [get_clan_members, get_clan_info, _make_request, makeRequestOutcome,
      raiseForStatusRaises, JsonValue.pyGet, Except.map, h1, h2]
  · intro mv cv h1 h2
    simp [get_clan_members, get_clan_info, _make_request, makeRequestOutcome,
      raiseForStatusRaises, JsonValue.pyGet, Except.map, h1, h2]

/-- C5 witness: an upstream clan payload with both keys absent yields the
defaults. -/
theorem c5_clan_members_derived_witness :
    (get_clan_members (mkService "k" "https://b" 30) "#T"
        (Upstream.response 200 "x" (Except.ok (JsonValue.obj [])))).2.2 =
      Except.ok (JsonValue.obj
        [("members", JsonValue.arr []), ("memberCount", JsonValue.num 0)]) :=
  (c5_clan_members_derived (mkService "k" "https://b" 30) "#T"
    (Upstream.response 200 "x" (Except.ok (JsonValue.obj []))) "x"
    []).2.2.2.1 rfl rfl

/-- C9: every operation of the client — the primitive `_make_request` and
each derived operation — leaves the service state (api_key, base_url,
timeout, session headers) unchanged, whatever the upstream did. -/
theorem c9_config_immutable (s : ClashRoyaleService) (t season name : String)
    (limit : Int) (u : Upstream) (endpoint : String)
    (params : Option (List (String × ParamValue))) :
    (_make_request s endpoint u params).1 = s ∧
    (_make_request s endpoint u params).1.api_key = s.api_key ∧
    (_make_request s endpoint u params).1.base_url = s.base_url ∧
    (_make_request s endpoint u params).1.timeout = s.timeout ∧
    (get_player_info s t u).1 = s ∧
    (get_player_battle_log s t u).1 = s ∧
    (get_clan_info s t u).1 = s ∧
    (get_clan_members s t u).1 = s ∧
    (get_clan_war_log s t u).1 = s ∧
    (get_clan_current_war s t u).1 = s ∧
    (get_cards s u).1 = s ∧
    (get_pol_leaderboard s season u).1 = s ∧
    (get_tournaments s name u).1 = s ∧
    (get_popular_clans s u limit).1 = s :=
  ⟨rfl, rfl, rfl, rfl, rfl, rfl, rfl, rfl, rfl, rfl, rfl, rfl, rfl, rfl⟩

/-- Splitting lemma for Python `rstrip`: a list is its rstripped form
followed by the run of stripped characters. -/
theorem rstrip_split (l : List Char) (c : Char) :
    l = (l.reverse.dropWhile (fun x => x = c)).reverse ++
        List.replicate (l.reverse.takeWhile (fun x => x = c)).length c := by
  have h1 : l.reverse.takeWhile (fun x => x = c) =
      List.replicate (l.reverse.takeWhile (fun x => x = c)).length c := by
    apply List.eq_replicate_of_mem
    intro x hx
    have hp := List.mem_takeWhile_imp hx
    exact of_decide_eq_true hp
  have h3 : l = (l.reverse.takeWhile (fun x => x = c) ++
      l.reverse.dropWhile (fun x => x = c)).reverse := by
    rw [List.takeWhile_append_dropWhile, List.reverse_reverse]
  conv_lhs => rw [h3]
  rw [List.reverse_append]
  congr 1
  conv_lhs => rw [h1]
  rw [List.reverse_replicate]

/-- C7: construction stores `base_url` with every trailing `/` stripped
(and nothing else changed), `_make_request` targets
`base_url + "/" + endpoint` with leading `/` stripped from the endpoint,
sending the `Authorization: Bearer <api_key>` header; in particular a
client built on `https://api.example.com/v1/` GETs
`https://api.example.com/v1/cards` for `get_cards`. -/
theorem c7_construction_and_url (key b : String) (tmo : Int) (u : Upstream) :
    ((mkService key b tmo).base_url.data.getLast? ≠ some '/') ∧
    (∃ k, b.data = (mkService key b tmo).base_url.data ++
        List.replicate k '/') ∧
    (∀ endpoint, makeRequestUrl (mkService key b tmo) endpoint =
        (mkService key b tmo).base_url ++ "/" ++ pyLstrip endpoint '/') ∧
    ((mkService key b tmo).session_headers =
        [("Authorization", "Bearer " ++ key),
         ("Accept", "application/json")]) ∧
    ((get_cards (mkService key "https://api.example.com/v1/" tmo) u).2.1 =
        [{ url := "https://api.example.com/v1/cards"
           params := none
           headers := [("Authorization", "Bearer " ++ key),
                       ("Accept", "application/json")]
           timeout := tmo }]) := by
  refine ⟨?_, ?_, fun endpoint => rfl, rfl, rfl⟩
  · intro hc
    have hc2 : ((b.data.reverse.dropWhile (fun x => x = '/')).reverse).getLast?
        = some '/' := hc
    rw [List.getLast?_reverse] at hc2
    have h := List.head?_dropWhile_not (fun x => x = '/') b.data.reverse
    rw [hc2] at h
    simp at h
  · exact ⟨(b.data.reverse.takeWhile (fun x => x = '/')).length,
      rstrip_split b.data '/'⟩

/-- C7 witness: the example scenario evaluated at a concrete credential. -/
theorem c7_construction_and_url_witness :
    (get_cards (mkService "secret" "https://api.example.com/v1/" 30)
        Upstream.timeout).2.1 =
      [{ url := "https://api.example.com/v1/cards"
         params := none
         headers := [("Authorization", "Bearer " ++ "secret"),
                     ("Accept", "application/json")]
         timeout := 30 }] :=
  (c7_construction_and_url "secret" "https://api.example.com/v1/" 30
    Upstream.timeout).2.2.2.2

/-- C3 counterexample: a surfaced non-2xx status outside `[400, 600)` —
here `304 Not Modified` with an empty (unparseable) body — is NOT
classified as `UpstreamError`: `raise_for_status` does not raise for it,
so `_make_request` falls through to `response.json()` and raises the
"Failed to connect" `RequestException` instead of the
`ValueError("API request failed with status 304: ...")` the claim
requires for every non-2xx status. -/
theorem c3_counterexample_status_304 :
    (_make_request (mkService "k" "https://b" 30) "cards"
        (Upstream.response 304 ""
          (Except.error "Expecting value: line 1 column 1 (char 0)"))
        none).2.2 =
      Except.error (PyError.requestException
        (connectMsg "Expecting value: line 1 column 1 (char 0)")) ∧
    (_make_request (mkService "k" "https://b" 30) "cards"
        (Upstream.response 304 ""
          (Except.error "Expecting value: line 1 column 1 (char 0)"))
        none).2.2 ≠
      Except.error (PyError.valueError (upstreamErrorMsg 304 "")) ∧
    classifyError (PyError.requestException
        (connectMsg "Expecting value: line 1 column 1 (char 0)")) =
      some ErrKind.connectionFailed ∧
    ErrKind.connectionFailed ≠ ErrKind.upstreamError := by
  refine ⟨rfl, ?_, classify_connect _, by decide⟩
  intro h
  exact PyError.noConfusion (Except.error.inj h)

/-- C3 (amended): for every request made by `_make_request`, an upstream
HTTP 404 fails with the NotFound classification, 403 with Forbidden,
429 with RateLimited, any other status in `[400, 600)` with UpstreamError
carrying the status and body, a timeout with UpstreamTimeout, and a
network-level failure with ConnectionFailed carrying a message; the six
kinds are mutually distinguishable by the caller (via `classifyError`,
computable from exception type and message alone). -/
theorem c3_error_classification (s : ClashRoyaleService) (endpoint : String)
    (params : Option (List (String × ParamValue))) :
    (∀ text body,
      (_make_request s endpoint (Upstream.response 404 text body)
          params).2.2 =
        Except.error (PyError.valueError notFoundMsg)) ∧
    (∀ text body,
      (_make_request s endpoint (Upstream.response 403 text body)
          params).2.2 =
        Except.error (PyError.valueError forbiddenMsg)) ∧
    (∀ text body,
      (_make_request s endpoint (Upstream.response 429 text body)
          params).2.2 =
        Except.error (PyError.valueError rateLimitMsg)) ∧
    (∀ st text body, 400 ≤ st → st < 600 → st ≠ 404 → st ≠ 403 → st ≠ 429 →
      (_make_request s endpoint (Upstream.response st text body)
          params).2.2 =
        Except.error (PyError.valueError (upstreamErrorMsg st text))) ∧
    ((_make_request s endpoint Upstream.timeout params).2.2 =
        Except.error (PyError.requestException timeoutMsg)) ∧
    (∀ m, (_make_request s endpoint (Upstream.netError m) params).2.2 =
        Except.error (PyError.requestException (connectMsg m))) ∧
    (classifyError (PyError.valueError notFoundMsg) =
        some ErrKind.notFound) ∧
    (classifyError (PyError.valueError forbiddenMsg) =
        some ErrKind.forbidden) ∧
    (classifyError (PyError.valueError rateLimitMsg) =
        some ErrKind.rateLimited) ∧
    (∀ st text, classifyError (PyError.valueError (upstreamErrorMsg st text))
        = some ErrKind.upstreamError) ∧
    (classifyError (PyError.requestException timeoutMsg) =
        some ErrKind.upstreamTimeout) ∧
    (∀ m, classifyError (PyError.requestException (connectMsg m)) =
        some ErrKind.connectionFailed) ∧
    List.Pairwise (fun a b => a ≠ b)
      [ErrKind.notFound, ErrKind.forbidden, ErrKind.rateLimited,
       ErrKind.upstreamError, ErrKind.upstreamTimeout,
       ErrKind.connectionFailed] := by
  refine ⟨fun text body => rfl, fun text body => rfl, fun text body => rfl,
    ?_, rfl, fun m => rfl, rfl, rfl, rfl,
    fun st text => classify_upstreamError st text, rfl,
    fun m => classify_connect m, by decide⟩
  intro st text body h1 h2 h3 h4 h5
  have hr : raiseForStatusRaises st = true := by
    unfold raiseForStatusRaises
    rw [decide_eq_true h1, decide_eq_true h2]
    rfl
  simp [_make_request, makeRequestOutcome, hr, h3, h4, h5]

/-- C3 witness: the amended classification applied at status 500. -/
theorem c3_error_classification_witness :
    (_make_request (mkService "k" "https://b" 30) "cards"
        (Upstream.response 500 "oops" (Except.error "x")) none).2.2 =
      Except.error (PyError.valueError (upstreamErrorMsg 500 "oops")) :=
  (c3_error_classification (mkService "k" "https://b" 30) "cards"
    none).2.2.2.1 500 "oops" (Except.error "x") (by decide) (by decide)
    (by decide) (by decide) (by decide)

/-- C4: a 2xx upstream response whose body is not well-formed JSON fails
with a body-parse failure whose classification (`connectionFailed`, the
final `RequestException` handler) is distinct from the NotFound,
Forbidden, RateLimited and UpstreamTimeout classifications. -/
theorem c4_parse_failure_distinct (s : ClashRoyaleService)
    (endpoint : String) (params : Option (List (String × ParamValue)))
    (st : Nat) (text em : String) (h1 : 200 ≤ st) (h2 : st < 300) :
    (_make_request s endpoint (Upstream.response st text (Except.error em))
        params).2.2 =
      Except.error (PyError.requestException (connectMsg em)) ∧
    classifyError (PyError.requestException (connectMsg em)) =
      some ErrKind.connectionFailed ∧
    ErrKind.connectionFailed ≠ ErrKind.notFound ∧
    ErrKind.connectionFailed ≠ ErrKind.forbidden ∧
    ErrKind.connectionFailed ≠ ErrKind.rateLimited ∧
    ErrKind.connectionFailed ≠ ErrKind.upstreamTimeout := by
  refine ⟨?_, classify_connect em, by decide, by decide, by decide,
    by decide⟩
  have hf : raiseForStatusRaises st = false := by
    unfold raiseForStatusRaises
    rw [decide_eq_false (by omega : ¬ 400 ≤ st)]
    rfl
  simp [_make_request, makeRequestOutcome, hf]

/-- C4 witness: a 200 response with an unparseable body. -/
theorem c4_parse_failure_distinct_witness :
    (_make_request (mkService "k" "https://b" 30) "cards"
        (Upstream.response 200 "nope" (Except.error "Expecting value"))
        none).2.2 =
      Except.error (PyError.requestException (connectMsg "Expecting value")) :=
  (c4_parse_failure_distinct (mkService "k" "https://b" 30) "cards" none
    200 "nope" "Expecting value" (by decide) (by decide)).1
